import Mathlib

/-!
Shallow embedding of SFE_CC3000.cpp (SparkFun CC3000 WiFi driver).

Pure data transformations are translated directly; chip commands and the
asynchronous status flags are modelled as explicit environments: each chip
command result (accept or reject, plus returned data) is an environment
field, and each status flag that the interrupt callback mutates is a
function of the millisecond clock.  Time is a Nat counting milliseconds
elapsed since the loop entry of the operation under study.  Blocking loops
are written with an explicit fuel parameter; a result of none means the
fuel ran out, and the temporal theorems show a concrete fuel bound under
which the loop provably returns.
-/

namespace CC3000

/-- Modelled from the spec: the scan configuration uses a per-channel dwell
timeout array; the number of channels comes from the missing header
SFE_CC3000.h (value 16 for the 2.4 GHz band). -/
def SCAN_NUM_CHANNELS : Nat := 16

/-- Modelled from the spec: the per-channel dwell timeout constant from the
missing header SFE_CC3000.h; the exact value is irrelevant to the claims,
only that it is a fixed nonzero constant. -/
def SCAN_CHANNEL_TIMEOUT : Nat := 100

/-- Modelled from the spec: security mode constants from the missing vendor
header utility/wlan.h (open, WEP, WPA, WPA2). -/
def WLAN_SEC_UNSEC : Nat := 0

/-- Modelled from the spec: WEP security mode constant. -/
def WLAN_SEC_WEP : Nat := 1

/-- Modelled from the spec: WPA security mode constant. -/
def WLAN_SEC_WPA : Nat := 2

/-- Modelled from the spec: WPA2 security mode constant. -/
def WLAN_SEC_WPA2 : Nat := 3

/-- Modelled from the spec: BSSID length constant from the missing header
(6 bytes). -/
def BSSID_LENGTH : Nat := 6

/-- One scan result record as returned by wlan_ioctl_get_scan_results into
the member buffer ap_scan_result_ (fields used by SFE_CC3000.cpp). -/
structure ScanResult where
  num_networks : Nat
  is_valid : Bool
  rssi : Nat
  security_mode : Nat
  ssid_length : Nat
  ssid : List Nat
  bssid : List Nat
  deriving DecidableEq

/-- The AccessPointInfo output struct filled by getNextAccessPoint. -/
structure AccessPointInfo where
  rssi : Nat
  security_mode : Nat
  ssid : List Nat
  bssid : List Nat
  deriving DecidableEq

/-- The driver object state used by the claims: the initialization flag and
the scan session members of SFE_CC3000. -/
structure DriverState where
  is_initialized : Bool
  num_access_points : Nat
  access_point_count : Nat
  ap_scan_result : ScanResult
  deriving DecidableEq

/-- Chip and hardware interactions issued by the driver, recorded as a trace
so that the theorems can speak about which commands were issued. -/
inductive Action where
  | setScanParams (scanTime : Nat) (channelTimeouts : List Nat)
  | getScanResults
  | setConnectionPolicy
  | wlanConnect
  | ipconfig
  | pinAndSpiSetup
  | wlanInitCmd
  | wlanStart
  deriving DecidableEq

/-- Constructor of SFE_CC3000 (lines 50 to 75): initialization flag false and
scan counters zero.  The ap_scan_result_ member is an uninitialized struct in
the source, so the initial buffer contents are a parameter. -/
def initialState (r : ScanResult) : DriverState :=
  { is_initialized := false
    num_access_points := 0
    access_point_count := 0
    ap_scan_result := r }

/-- Environment for init: whether the interrupt pin maps to an interrupt
number on the target microcontroller (the pin 2 or pin 3 check at lines 102
to 122). -/
structure InitEnv where
  intPinSupported : Bool
  deriving DecidableEq

/-- The init member function (lines 90 to 156): early return true when already
initialized; otherwise validate the interrupt pin, configure pins and SPI,
register callbacks and start the chip. -/
def init (st : DriverState) (env : InitEnv) : Bool × DriverState × List Action :=
  if st.is_initialized then (true, st, [])
  else if env.intPinSupported = false then (false, st, [])
  else (true, { st with is_initialized := true },
        [Action.pinAndSpiSetup, Action.wlanInitCmd, Action.wlanStart])

/-- The channel interval list construction at lines 221 to 224: a loop over
all SCAN_NUM_CHANNELS indices whose body assigns only index 0 of the stack
array.  The argument a is the arbitrary (uninitialized) initial contents of
the stack array; the loop runs once per channel index. -/
def channelTimeoutsLoop (a : List Nat) : Nat → List Nat
  | 0 => a
  | k + 1 => channelTimeoutsLoop (a.set 0 SCAN_CHANNEL_TIMEOUT) k

/-- The channel_timeouts array as it stands when passed to
wlan_ioctl_set_scan_params. -/
def buildChannelTimeouts (a : List Nat) : List Nat :=
  channelTimeoutsLoop a SCAN_NUM_CHANNELS

/-- Environment for scanAccessPoints: the uninitialized stack contents of
channel_timeouts, and the results of the three chip commands it issues. -/
structure ScanEnv where
  stackInit : List Nat
  setParamsOk : Bool
  fetchOk : Bool
  fetchResult : ScanResult
  stopParamsOk : Bool
  deriving DecidableEq

/-- The scanAccessPoints member function (lines 211 to 267): configure the
scan, wait, reset the session counters, fetch the first result to learn the
network count, then issue a zero-duration configuration to stop the scan. -/
def scanAccessPoints (st : DriverState) (env : ScanEnv) (scan_time : Nat) :
    Bool × DriverState × List Action :=
  if st.is_initialized = false then (false, st, [])
  else
    let channel_timeouts := buildChannelTimeouts env.stackInit
    if env.setParamsOk = false then
      (false, st, [Action.setScanParams scan_time channel_timeouts])
    else
      let st1 := { st with num_access_points := 0, access_point_count := 0 }
      if env.fetchOk = false then
        (false, st1,
         [Action.setScanParams scan_time channel_timeouts, Action.getScanResults])
      else
        let st2 := { st1 with ap_scan_result := env.fetchResult,
                              num_access_points := env.fetchResult.num_networks }
        if env.stopParamsOk = false then
          (false, st2,
           [Action.setScanParams scan_time channel_timeouts, Action.getScanResults,
            Action.setScanParams 0 channel_timeouts])
        else
          (true, st2,
           [Action.setScanParams scan_time channel_timeouts, Action.getScanResults,
            Action.setScanParams 0 channel_timeouts])

/-- The record copied into the ap_info output struct at lines 297 to 304:
rssi, security mode, the SSID truncated to its reported length with a null
terminator appended, and the 6-byte BSSID. -/
def recordFromBuffer (r : ScanResult) : AccessPointInfo :=
  { rssi := r.rssi
    security_mode := r.security_mode
    ssid := r.ssid.take r.ssid_length ++ [0]
    bssid := r.bssid.take BSSID_LENGTH }

/-- The getNextAccessPoint member function (lines 280 to 316).  fetchOk and
fetchResult model the read-ahead wlan_ioctl_get_scan_results command: its
status and, on success, the record it writes into the buffer. -/
def getNextAccessPoint (st : DriverState) (fetchOk : Bool) (fetchResult : ScanResult)
    (ap_info : AccessPointInfo) : Bool × AccessPointInfo × DriverState :=
  if st.is_initialized = false then (false, ap_info, st)
  else if st.ap_scan_result.is_valid = false then (false, ap_info, st)
  else if st.num_access_points ≤ st.access_point_count then (false, ap_info, st)
  else
    let info := recordFromBuffer st.ap_scan_result
    if fetchOk = false then (false, info, st)
    else
      (true, info,
       { st with ap_scan_result := fetchResult,
                 access_point_count := st.access_point_count + 1 })

/-- Environment for connect: the two status flags as functions of the
millisecond clock (they are written by the asynchronous event callback), the
result of the connection policy command, the result of a wlan_connect attempt
issued at a given time, and how much extra time each attempt or poll
iteration consumes beyond its guaranteed minimum. -/
structure ConnectEnv where
  connectedAt : Nat → Bool
  dhcpAt : Nat → Bool
  policyOk : Bool
  acceptAt : Nat → Bool
  attemptExtra : Nat → Nat
  pollExtra : Nat → Nat

/-- Exit of the connection attempt loop: either an accepted attempt or an
already-connected flag (proceed to the DHCP wait), or the timeout fired. -/
inductive ConnPhase where
  | accepted (t : Nat)
  | timedOut (t : Nat)
  deriving DecidableEq

/-- The connection attempt loop at lines 358 to 395: while the connected flag
is down, sleep 10 ms, issue wlan_connect, break on acceptance, otherwise
check the elapsed time against the timeout (a timeout of 0 meaning no bound).
The clock argument t counts milliseconds since loop entry; each iteration
advances it by the 10 ms delay plus the attempt overhead. -/
def connectLoop (env : ConnectEnv) (timeout : Nat) : Nat → Nat → Option (ConnPhase × List Action)
  | _, 0 => none
  | t, fuel + 1 =>
    if env.connectedAt t then some (ConnPhase.accepted t, [])
    else
      let t1 := t + 10 + env.attemptExtra t
      if env.acceptAt t1 then some (ConnPhase.accepted t1, [Action.wlanConnect])
      else if timeout ≠ 0 ∧ timeout < t1 then some (ConnPhase.timedOut t1, [Action.wlanConnect])
      else
        match connectLoop env timeout t1 fuel with
        | none => none
        | some (ph, tr) => some (ph, Action.wlanConnect :: tr)

/-- The DHCP wait loop at lines 402 to 411: spin on the DHCP flag, checking
the elapsed time against the timeout each iteration.  Each poll iteration
advances the clock by at least one tick. -/
def dhcpWait (env : ConnectEnv) (timeout : Nat) : Nat → Nat → Option (Bool × Nat)
  | _, 0 => none
  | t, fuel + 1 =>
    if env.dhcpAt t then some (true, t)
    else if timeout ≠ 0 ∧ timeout < t then some (false, t)
    else dhcpWait env timeout (t + 1 + env.pollExtra t) fuel

/-- The security mode whitelist check at lines 345 to 350. -/
def securityValid (security : Nat) : Bool :=
  (security == WLAN_SEC_UNSEC) || (security == WLAN_SEC_WEP) ||
  (security == WLAN_SEC_WPA) || (security == WLAN_SEC_WPA2)

/-- The connect member function (lines 327 to 421): precondition checks
(initialized, not already DHCP-assigned, known security mode), the connection
policy command, the attempt loop, the DHCP wait, and on success the ipconfig
snapshot query.  The result carries the boolean outcome, the clock value at
return, the resulting driver state and the trace of chip commands issued;
none means the fuel bound was insufficient. -/
def connect (st : DriverState) (env : ConnectEnv) (security : Nat) (timeout : Nat)
    (fuel : Nat) : Option (Bool × Nat × DriverState × List Action) :=
  if st.is_initialized = false then some (false, 0, st, [])
  else if env.dhcpAt 0 then some (false, 0, st, [])
  else if securityValid security = false then some (false, 0, st, [])
  else if env.policyOk = false then some (false, 0, st, [Action.setConnectionPolicy])
  else
    match connectLoop env timeout 0 fuel with
    | none => none
    | some (ConnPhase.timedOut t, tr) =>
      some (false, t, st, Action.setConnectionPolicy :: tr)
    | some (ConnPhase.accepted t, tr) =>
      match dhcpWait env timeout t fuel with
      | none => none
      | some (false, t2) => some (false, t2, st, Action.setConnectionPolicy :: tr)
      | some (true, t2) =>
        some (true, t2, st, (Action.setConnectionPolicy :: tr) ++ [Action.ipconfig])

/-- The byte extraction at lines 479 to 483 of dnsLookup: the four bytes of
the returned 32-bit address, most significant byte first. -/
def ipBytes (v : Nat) : List Nat :=
  [(v >>> 24) &&& 0xFF, (v >>> 16) &&& 0xFF, (v >>> 8) &&& 0xFF, v &&& 0xFF]

/-- The dnsLookup member function (lines 450 to 486): precondition checks,
then the gethostbyname command whose result (none for a falsy return) is an
environment input, then the byte extraction into the output struct. -/
def dnsLookup (st : DriverState) (connected dhcp : Bool) (lookupResult : Option Nat) :
    Option (List Nat) :=
  if st.is_initialized = false then none
  else if connected = false then none
  else if dhcp = false then none
  else
    match lookupResult with
    | none => none
    | some v => some (ipBytes v)

/-- The per-field byte-order reversal loop of getConnectionInfo (lines 602 to
637): output index i receives input index max - 1 - i. -/
def revCopyFn (n : Nat) (src : Fin n → Nat) : Fin n → Nat :=
  fun i => src ⟨n - 1 - i.1, by have h := i.2; omega⟩

/-- The network configuration snapshot as returned by netapp_ipconfig (the
fields read by getConnectionInfo). -/
structure RawConnInfo where
  aucIP : Fin 4 → Nat
  aucSubnetMask : Fin 4 → Nat
  aucDefaultGateway : Fin 4 → Nat
  aucDHCPServer : Fin 4 → Nat
  aucDNSServer : Fin 4 → Nat
  uaMacAddr : Fin 6 → Nat
  uaSSID : Fin 32 → Nat

/-- The ConnectionInfo output struct of getConnectionInfo. -/
structure ConnectionInfo where
  ip_address : Fin 4 → Nat
  subnet_mask : Fin 4 → Nat
  default_gateway : Fin 4 → Nat
  dhcp_server : Fin 4 → Nat
  dns_server : Fin 4 → Nat
  mac_address : Fin 6 → Nat
  ssid : Fin 32 → Nat

/-- The getConnectionInfo member function (lines 582 to 643): precondition
checks, then each address field copied with reversed byte order and the SSID
copied as is. -/
def getConnectionInfo (st : DriverState) (connected dhcp : Bool) (raw : RawConnInfo) :
    Option ConnectionInfo :=
  if st.is_initialized = false then none
  else if connected = false then none
  else if dhcp = false then none
  else some
    { ip_address := revCopyFn 4 raw.aucIP
      subnet_mask := revCopyFn 4 raw.aucSubnetMask
      default_gateway := revCopyFn 4 raw.aucDefaultGateway
      dhcp_server := revCopyFn 4 raw.aucDHCPServer
      dns_server := revCopyFn 4 raw.aucDNSServer
      mac_address := revCopyFn 6 raw.uaMacAddr
      ssid := raw.uaSSID }

/-- Operations of the scan session state machine used to state the session
invariants: init, scanAccessPoints and getNextAccessPoint, each with its
environment. -/
inductive Op where
  | opInit (env : InitEnv)
  | opScan (env : ScanEnv) (scan_time : Nat)
  | opGetNext (fetchOk : Bool) (fetchResult : ScanResult) (ap : AccessPointInfo)
  deriving DecidableEq

/-- State transition of one operation (outputs discarded). -/
def step (st : DriverState) : Op → DriverState
  | Op.opInit env => (init st env).2.1
  | Op.opScan env t => (scanAccessPoints st env t).2.1
  | Op.opGetNext ok r ap => (getNextAccessPoint st ok r ap).2.2

/-- State after a sequence of operations. -/
def runTrace (st : DriverState) : List Op → DriverState
  | [] => st
  | op :: ops => runTrace (step st op) ops

/-- The Scan Session count invariant: retrievedCount at most totalNetworks. -/
def countInv (st : DriverState) : Prop :=
  st.access_point_count ≤ st.num_access_points

/-- Whether an operation is a scanAccessPoints call that populates the
session with a valid first record: the driver is initialized, the scan
configuration command is accepted and the results fetch succeeds with a
record marked valid. -/
def scanPopulates (st : DriverState) (op : Op) : Bool :=
  match op with
  | Op.opScan env _ =>
    st.is_initialized && env.setParamsOk && env.fetchOk && env.fetchResult.is_valid
  | _ => false

/-- A trace along which no scan call populates the session with a valid
record. -/
def noValidScan : DriverState → List Op → Prop
  | _, [] => True
  | st, op :: ops => scanPopulates st op = false ∧ noValidScan (step st op) ops

/-- Obtainability is blocked: either the session is exhausted or the buffered
record is not valid.  This is the auxiliary invariant behind the session
validity claim. -/
def blockedInv (st : DriverState) : Prop :=
  st.num_access_points ≤ st.access_point_count ∨ st.ap_scan_result.is_valid = false

/-- A blank AccessPointInfo output struct handed to each getNextAccessPoint
call of a run (its contents do not influence the result). -/
def emptyAP : AccessPointInfo :=
  { rssi := 0, security_mode := 0, ssid := [], bssid := [] }

/-- Runner for a block of consecutive getNextAccessPoint calls: call number i
uses the read-ahead fetch outcome fetches i; collects the returned booleans
and the final state. -/
def getNextCalls (fetches : Nat → Bool × ScanResult) :
    DriverState → Nat → Nat → List Bool × DriverState
  | st, _, 0 => ([], st)
  | st, i, k + 1 =>
    let r := getNextAccessPoint st (fetches i).1 (fetches i).2 emptyAP
    let rest := getNextCalls fetches r.2.2 (i + 1) k
    (r.1 :: rest.1, rest.2)

/-! Concrete fixtures used by witnesses and counterexamples. -/

/-- A valid scan record reporting two networks. -/
def demoRecord : ScanResult :=
  { num_networks := 2
    is_valid := true
    rssi := 57
    security_mode := 3
    ssid_length := 2
    ssid := [97, 98]
    bssid := [1, 2, 3, 4, 5, 6] }

/-- The same record with the validity flag down. -/
def invalidRecord : ScanResult :=
  { demoRecord with is_valid := false }

/-- An initialized driver before any successful scan. -/
def stReady : DriverState :=
  { is_initialized := true
    num_access_points := 0
    access_point_count := 0
    ap_scan_result := invalidRecord }

/-- A scan environment in which every chip command succeeds and the first
fetched record is demoRecord. -/
def scanEnvDemo : ScanEnv :=
  { stackInit := List.replicate SCAN_NUM_CHANNELS 0
    setParamsOk := true
    fetchOk := true
    fetchResult := demoRecord
    stopParamsOk := true }

/-- Driver state right after the successful scan of scanEnvDemo. -/
def stScan : DriverState :=
  (scanAccessPoints stReady scanEnvDemo 4000).2.1

/-- A connect environment in which the chip never reacts: both flags stay
down and every attempt is rejected. -/
def envIdle : ConnectEnv :=
  { connectedAt := fun _ => false
    dhcpAt := fun _ => false
    policyOk := true
    acceptAt := fun _ => false
    attemptExtra := fun _ => 0
    pollExtra := fun _ => 0 }

/-! Claim theorems. -/

/-- C2: the claim states that every entry of the per-channel dwell-timeout
array is set to the channel timeout before the array is passed to the
scan-configuration command.  The loop body at line 223 assigns only index 0,
so every other entry keeps its uninitialized stack contents: starting from an
all-zero stack array, entry 0 becomes SCAN_CHANNEL_TIMEOUT and entries 1 to
15 stay 0, and exactly this array is what a successful scan passes to the
scan-configuration command. -/
theorem scan_channel_timeouts_only_first_entry :
    buildChannelTimeouts (List.replicate SCAN_NUM_CHANNELS 0) =
      SCAN_CHANNEL_TIMEOUT :: List.replicate (SCAN_NUM_CHANNELS - 1) 0 ∧
    SCAN_CHANNEL_TIMEOUT ≠ 0 ∧
    (scanAccessPoints stReady scanEnvDemo 4000).2.2.head? =
      some (Action.setScanParams 4000
        (SCAN_CHANNEL_TIMEOUT :: List.replicate (SCAN_NUM_CHANNELS - 1) 0)) := by
  decide

/-- C9: init is idempotent: when the driver is already initialized it returns
true immediately, issues no hardware or chip action and leaves the state
unchanged. -/
theorem init_idempotent (st : DriverState) (env : InitEnv)
    (h : st.is_initialized = true) :
    init st env = (true, st, []) := by
  simp [init, h]

/-- Witness for C9 at a concrete initialized state. -/
theorem init_idempotent_witness :
    init stReady { intPinSupported := true } = (true, stReady, []) :=
  init_idempotent stReady { intPinSupported := true } rfl

/-- C10: once the initialization, validity and count guards pass, the record
fields are written into the output struct before the read-ahead fetch, so a
failing fetch returns false with the output struct already overwritten with
the buffered record and the retrieved count unchanged. -/
theorem getNext_fetch_failure_overwrites (st : DriverState) (fr : ScanResult)
    (ap : AccessPointInfo)
    (hinit : st.is_initialized = true)
    (hvalid : st.ap_scan_result.is_valid = true)
    (hcount : st.access_point_count < st.num_access_points) :
    getNextAccessPoint st false fr ap =
      (false, recordFromBuffer st.ap_scan_result, st) := by
  simp [getNextAccessPoint, hinit, hvalid, Nat.not_le.mpr hcount]

/-- Witness for C10 on the state after a successful two-network scan. -/
theorem getNext_fetch_failure_overwrites_witness :
    getNextAccessPoint stScan false demoRecord emptyAP =
      (false, recordFromBuffer stScan.ap_scan_result, stScan) :=
  getNext_fetch_failure_overwrites stScan demoRecord emptyAP (by decide) (by decide)
    (by decide)

/-- C5: connect called while uninitialized, while already DHCP-assigned, or
with a security mode outside the four known ones, returns false with an empty
command trace (no chip command issued) and the driver state unchanged. -/
theorem connect_precondition_rejects (st : DriverState) (env : ConnectEnv)
    (security timeout fuel : Nat)
    (h : st.is_initialized = false ∨ env.dhcpAt 0 = true ∨
         securityValid security = false) :
    connect st env security timeout fuel = some (false, 0, st, []) := by
  unfold connect
  rcases h with h | h | h
  · simp [h]
  · cases hinit : st.is_initialized <;> simp [hinit, h]
  · cases hinit : st.is_initialized <;> cases hd : env.dhcpAt 0 <;> simp [hinit, hd, h]

/-- Witness for C5: an unknown security mode is rejected without any chip
command. -/
theorem connect_precondition_rejects_witness :
    connect stReady envIdle 7 5000 40 = some (false, 0, stReady, []) :=
  connect_precondition_rejects stReady envIdle 7 5000 40 (Or.inr (Or.inr (by decide)))

/-- Helper for C7: the index reversal copy is an involution at every length. -/
lemma revCopyFn_involutive (n : Nat) (src : Fin n → Nat) :
    revCopyFn n (revCopyFn n src) = src := by
  funext i
  have h := i.2
  simp only [revCopyFn]
  congr 1
  apply Fin.ext
  show n - 1 - (n - 1 - i.1) = i.1
  omega

/-- C7: the per-field byte-order reversal used by getConnectionInfo is
self-inverse on 4-byte address fields and on the 6-byte MAC field. -/
theorem connection_info_reverse_involutive :
    (∀ a : Fin 4 → Nat, revCopyFn 4 (revCopyFn 4 a) = a) ∧
    (∀ b : Fin 6 → Nat, revCopyFn 6 (revCopyFn 6 b) = b) :=
  ⟨fun a => revCopyFn_involutive 4 a, fun b => revCopyFn_involutive 6 b⟩

/-- C8: on a successful resolution of a 32-bit value, dnsLookup fills the
output bytes in big-endian order: byte 0 is the most significant byte of the
value and byte 3 is the least significant byte. -/
theorem dnsLookup_big_endian (st : DriverState) (v : Nat)
    (hinit : st.is_initialized = true) (hv : v < 2 ^ 32) :
    dnsLookup st true true (some v) = some (ipBytes v) ∧
    (ipBytes v).getD 0 0 = v / 2 ^ 24 ∧
    (ipBytes v).getD 3 0 = v % 2 ^ 8 := by
  refine ⟨by simp [dnsLookup, hinit], ?_, ?_⟩
  · show (v >>> 24) &&& 0xFF = v / 2 ^ 24
    have h1 : (0xFF : Nat) = 2 ^ 8 - 1 := by norm_num
    rw [h1, Nat.and_pow_two_sub_one_eq_mod, Nat.shiftRight_eq_div_pow]
    have hv2 : v < 2 ^ 24 * 2 ^ 8 := lt_of_lt_of_eq hv (by norm_num)
    exact Nat.mod_eq_of_lt (Nat.div_lt_of_lt_mul hv2)
  · show v &&& 0xFF = v % 2 ^ 8
    have h1 : (0xFF : Nat) = 2 ^ 8 - 1 := by norm_num
    rw [h1, Nat.and_pow_two_sub_one_eq_mod]

/-- Witness for C8 at the address 0x01020304. -/
theorem dnsLookup_big_endian_witness :
    dnsLookup stReady true true (some 16909060) = some (ipBytes 16909060) ∧
    (ipBytes 16909060).getD 0 0 = 16909060 / 2 ^ 24 ∧
    (ipBytes 16909060).getD 3 0 = 16909060 % 2 ^ 8 :=
  dnsLookup_big_endian stReady 16909060 rfl (by norm_num)

/-- Helper for C1: the DHCP wait reports success only at a time at which the
DHCP flag reads true. -/
lemma dhcpWait_true_flag (env : ConnectEnv) (timeout : Nat) :
    ∀ fuel t t2, dhcpWait env timeout t fuel = some (true, t2) →
      env.dhcpAt t2 = true := by
  intro fuel
  induction fuel with
  | zero => intro t t2 h; exact absurd h (by simp [dhcpWait])
  | succ n ih =>
    intro t t2 h
    simp only [dhcpWait] at h
    split at h
    · rename_i hd
      simp only [Option.some.injEq, Prod.mk.injEq] at h
      exact h.2 ▸ hd
    · split at h
      · simp at h
      · exact ih _ _ h

/-- C1 amended: whenever connect returns true, the DHCP flag is true at the
moment of return; the connected flag is not rechecked at exit and may be
false there (see the counterexample). -/
theorem connect_true_dhcp_at_return (st : DriverState) (env : ConnectEnv)
    (security timeout fuel t2 : Nat) (st2 : DriverState) (tr : List Action)
    (h : connect st env security timeout fuel = some (true, t2, st2, tr)) :
    env.dhcpAt t2 = true := by
  unfold connect at h
  split at h
  · simp at h
  · split at h
    · simp at h
    · split at h
      · simp at h
      · split at h
        · simp at h
        · split at h
          · simp at h
          · simp at h
          · split at h
            · simp at h
            · simp at h
            · rename_i hdw
              simp only [Option.some.injEq, Prod.mk.injEq] at h
              exact h.2.1 ▸ dhcpWait_true_flag env timeout fuel _ _ hdw

/-- A chip behavior that accepts the first connection attempt and raises the
DHCP flag from 5 ms on, while the connected flag never rises. -/
def envDhcpOnly : ConnectEnv :=
  { connectedAt := fun _ => false
    dhcpAt := fun t => decide (5 ≤ t)
    policyOk := true
    acceptAt := fun _ => true
    attemptExtra := fun _ => 0
    pollExtra := fun _ => 0 }

/-- C1 counterexample: under envDhcpOnly, connect returns true at 10 ms while
the connected flag reads false at that moment, refuting the frozen claim that
both flags are true at a successful return. -/
theorem connect_true_without_connected :
    connect stReady envDhcpOnly 0 100 10 =
      some (true, 10, stReady,
        [Action.setConnectionPolicy, Action.wlanConnect, Action.ipconfig]) ∧
    envDhcpOnly.connectedAt 10 = false := by
  constructor
  · decide
  · rfl

/-- Witness for C1 on the concrete successful run of envDhcpOnly. -/
theorem connect_true_dhcp_at_return_witness :
    envDhcpOnly.dhcpAt 10 = true :=
  connect_true_dhcp_at_return stReady envDhcpOnly 0 100 10 10 stReady
    [Action.setConnectionPolicy, Action.wlanConnect, Action.ipconfig] (by decide)

/-- Helper for C4: when the connected flag never rises and every attempt is
rejected, the attempt loop reaches the timeout branch, exiting at most one
iteration (the 10 ms delay plus the attempt overhead bound D) beyond the
deadline, provided the fuel covers the deadline. -/
lemma connectLoop_times_out (env : ConnectEnv) (T D : Nat) (hT : T ≠ 0)
    (hconn : ∀ t, env.connectedAt t = false)
    (hacc : ∀ t, env.acceptAt t = false)
    (hD : ∀ t, env.attemptExtra t ≤ D) :
    ∀ fuel t, t ≤ T → T + 1 ≤ t + 10 * fuel →
      ∃ t2 tr, connectLoop env T t fuel = some (ConnPhase.timedOut t2, tr) ∧
        t2 ≤ T + 10 + D := by
  intro fuel
  induction fuel with
  | zero => intro t ht hf; omega
  | succ n ih =>
    intro t ht hf
    have hc := hconn t
    have ha := hacc (t + 10 + env.attemptExtra t)
    by_cases hlt : T < t + 10 + env.attemptExtra t
    · refine ⟨t + 10 + env.attemptExtra t, [Action.wlanConnect], ?_, ?_⟩
      · simp [connectLoop, hc, ha, hT, hlt]
      · have := hD t
        omega
    · have hmore : t + 10 + env.attemptExtra t ≤ T := by omega
      obtain ⟨t2, tr, heq, hb⟩ := ih (t + 10 + env.attemptExtra t) hmore (by omega)
      refine ⟨t2, Action.wlanConnect :: tr, ?_, hb⟩
      simp [connectLoop, hc, ha, hlt, heq]

/-- C4: with a positive timeout T, if the chip never signals (both status
flags stay down and every connect attempt is rejected), connect returns false
with a return clock of at most T plus one polling iteration (the 10 ms delay
plus the per-attempt overhead bound D); a fuel of (T + 1 + 9) / 10 iterations
already suffices, so the loop provably does not run past the deadline. -/
theorem connect_timeout_bound (st : DriverState) (env : ConnectEnv)
    (security T D fuel : Nat) (hT : T ≠ 0)
    (hconn : ∀ t, env.connectedAt t = false)
    (hdhcp : ∀ t, env.dhcpAt t = false)
    (hacc : ∀ t, env.acceptAt t = false)
    (hD : ∀ t, env.attemptExtra t ≤ D)
    (hfuel : T + 1 ≤ 10 * fuel) :
    ∃ t2 st2 tr, connect st env security T fuel = some (false, t2, st2, tr) ∧
      t2 ≤ T + 10 + D := by
  by_cases h1 : st.is_initialized = false
  · exact ⟨0, st, [], by simp [connect, h1], by omega⟩
  by_cases h2 : securityValid security = false
  · exact ⟨0, st, [], by simp [connect, h1, hdhcp 0, h2], by omega⟩
  by_cases h3 : env.policyOk = false
  · exact ⟨0, st, [Action.setConnectionPolicy],
      by simp [connect, h1, hdhcp 0, h2, h3], by omega⟩
  obtain ⟨t2, tr, heq, hb⟩ :=
    connectLoop_times_out env T D hT hconn hacc hD fuel 0 (by omega) (by omega)
  refine ⟨t2, st, Action.setConnectionPolicy :: tr, ?_, hb⟩
  simp [connect, h1, hdhcp 0, h2, h3, heq]

/-- Witness for C4: the idle chip environment with T = 30 and no attempt
overhead; connect returns false by 40 ms. -/
theorem connect_timeout_bound_witness :
    ∃ t2 st2 tr, connect stReady envIdle 0 30 4 = some (false, t2, st2, tr) ∧
      t2 ≤ 30 + 10 + 0 :=
  connect_timeout_bound stReady envIdle 0 30 0 4 (by decide) (fun _ => rfl)
    (fun _ => rfl) (fun _ => rfl) (fun _ => Nat.le_refl 0) (by norm_num)

/-- Helper for C3: running m + 1 retrieval calls from a session with m
records remaining, a valid buffered record, and fetches that always succeed
with records marked valid, yields m true results followed by one false, and
the count ends at the session total. -/
lemma getNextCalls_exhaust (fetches : Nat → Bool × ScanResult) (N : Nat)
    (hf : ∀ i, (fetches i).1 = true)
    (hfv : ∀ i, (fetches i).2.is_valid = true) :
    ∀ m i st, st.is_initialized = true → st.num_access_points = N →
      st.access_point_count + m = N → st.ap_scan_result.is_valid = true →
      (getNextCalls fetches st i (m + 1)).1 = List.replicate m true ++ [false] ∧
      (getNextCalls fetches st i (m + 1)).2.access_point_count = N := by
  intro m
  induction m with
  | zero =>
    intro i st h1 h2 h3 h4
    have hle : st.num_access_points ≤ st.access_point_count := by omega
    refine ⟨?_, ?_⟩
    · simp [getNextCalls, getNextAccessPoint, h1, h4, hle]
    · simp [getNextCalls, getNextAccessPoint, h1, h4, hle]
      omega
  | succ n ih =>
    intro i st h1 h2 h3 h4
    have hlt : ¬ (st.num_access_points ≤ st.access_point_count) := by omega
    have hcall :
        getNextAccessPoint st (fetches i).1 (fetches i).2 emptyAP =
          (true, recordFromBuffer st.ap_scan_result,
           { st with ap_scan_result := (fetches i).2,
                     access_point_count := st.access_point_count + 1 }) := by
      simp [getNextAccessPoint, h1, h4, hlt, hf i]
    obtain ⟨ihr, ihc⟩ := ih (i + 1)
      { st with ap_scan_result := (fetches i).2,
                access_point_count := st.access_point_count + 1 }
      h1 h2 (by simp; omega) (hfv i)
    have hstep : getNextCalls fetches st i (n + 1 + 1) =
        ((getNextAccessPoint st (fetches i).1 (fetches i).2 emptyAP).1 ::
           (getNextCalls fetches
             (getNextAccessPoint st (fetches i).1 (fetches i).2 emptyAP).2.2
             (i + 1) (n + 1)).1,
         (getNextCalls fetches
             (getNextAccessPoint st (fetches i).1 (fetches i).2 emptyAP).2.2
             (i + 1) (n + 1)).2) := rfl
    refine ⟨?_, ?_⟩
    · rw [hstep]
      simp only [hcall, ihr, List.replicate_succ, List.cons_append]
    · rw [hstep]
      simp only [hcall, ihc]

/-- C3 amended: after a successful scanAccessPoints whose first-results fetch
delivered a record marked valid reporting N networks, and when every
read-ahead results-fetch succeeds and every fetched record is marked valid,
getNextAccessPoint returns true on each of the first N calls, false on the
following call, and the retrieved count equals N after exhaustion.  The
frozen claim assumed only fetch success; the counterexample below shows a
succeeding fetch delivering an invalid record breaks it. -/
theorem scan_retrieval_exhausts (s : DriverState) (env : ScanEnv) (t N : Nat)
    (fetches : Nat → Bool × ScanResult)
    (hscan : (scanAccessPoints s env t).1 = true)
    (hN : env.fetchResult.num_networks = N)
    (hvalid : env.fetchResult.is_valid = true)
    (hf : ∀ i, (fetches i).1 = true)
    (hfv : ∀ i, (fetches i).2.is_valid = true) :
    (getNextCalls fetches (scanAccessPoints s env t).2.1 1 (N + 1)).1 =
      List.replicate N true ++ [false] ∧
    (getNextCalls fetches (scanAccessPoints s env t).2.1 1 (N + 1)).2.access_point_count
      = N := by
  by_cases h1 : s.is_initialized = false
  · exact absurd hscan (by simp [scanAccessPoints, h1])
  by_cases h2 : env.setParamsOk = false
  · exact absurd hscan (by simp [scanAccessPoints, h1, h2])
  by_cases h3 : env.fetchOk = false
  · exact absurd hscan (by simp [scanAccessPoints, h1, h2, h3])
  by_cases h4 : env.stopParamsOk = false
  · exact absurd hscan (by simp [scanAccessPoints, h1, h2, h3, h4])
  have hinit : s.is_initialized = true := by
    cases hb : s.is_initialized
    · exact absurd hb h1
    · rfl
  have hstate : (scanAccessPoints s env t).2.1 =
      { s with ap_scan_result := env.fetchResult,
               num_access_points := env.fetchResult.num_networks,
               access_point_count := 0 } := by
    simp [scanAccessPoints, h1, h2, h3, h4]
  rw [hstate]
  exact getNextCalls_exhaust fetches N hf hfv N 1
    { s with ap_scan_result := env.fetchResult,
             num_access_points := env.fetchResult.num_networks,
             access_point_count := 0 }
    hinit hN (by simp) hvalid

/-- A fetch sequence that always reports success but whose read-ahead for the
first retrieval call delivers a record marked invalid. -/
def fetchesC3 : Nat → Bool × ScanResult :=
  fun i => (true, if i = 1 then invalidRecord else demoRecord)

/-- C3 counterexample: after the successful two-network scan of scanEnvDemo,
with every results-fetch succeeding, the second retrieval call already
returns false (the read-ahead of call one delivered a record marked invalid)
and the retrieved count stops at 1, refuting the frozen claim that the first
totalNetworks calls all return true and the count reaches totalNetworks. -/
theorem scan_retrieval_early_stop :
    (scanAccessPoints stReady scanEnvDemo 4000).1 = true ∧
    (scanAccessPoints stReady scanEnvDemo 4000).2.1.num_access_points = 2 ∧
    (scanAccessPoints stReady scanEnvDemo 4000).2.1.ap_scan_result.is_valid = true ∧
    (getNextCalls fetchesC3 (scanAccessPoints stReady scanEnvDemo 4000).2.1 1 3).1 =
      [true, false, false] ∧
    (getNextCalls fetchesC3 (scanAccessPoints stReady scanEnvDemo 4000).2.1 1 3).2.access_point_count
      = 1 := by
  decide

/-- A fetch sequence that always succeeds with the valid demoRecord. -/
def fetchesValid : Nat → Bool × ScanResult :=
  fun _ => (true, demoRecord)

/-- Witness for C3 on the two-network scan of scanEnvDemo with all fetched
records valid. -/
theorem scan_retrieval_exhausts_witness :
    (getNextCalls fetchesValid (scanAccessPoints stReady scanEnvDemo 4000).2.1 1 (2 + 1)).1 =
      List.replicate 2 true ++ [false] ∧
    (getNextCalls fetchesValid (scanAccessPoints stReady scanEnvDemo 4000).2.1 1 (2 + 1)).2.access_point_count
      = 2 :=
  scan_retrieval_exhausts stReady scanEnvDemo 4000 2 fetchesValid (by decide) (by decide)
    (by decide) (fun _ => rfl) (fun _ => rfl)

/-- Helper for C6: a blocked session (exhausted or invalid buffer) yields no
record, whatever the read-ahead fetch would return. -/
lemma blockedInv_getNext_false (st : DriverState) (h : blockedInv st) (ok : Bool)
    (fr : ScanResult) (ap : AccessPointInfo) :
    (getNextAccessPoint st ok fr ap).1 = false := by
  unfold getNextAccessPoint
  split
  · rfl
  · split
    · rfl
    · split
      · rfl
      · rename_i hni hnv hnc
        rcases h with h | h
        · exact absurd h hnc
        · exact absurd h hnv

/-- Helper for C6: a blocked session is left unchanged by
getNextAccessPoint. -/
lemma blockedInv_getNext_unchanged (st : DriverState) (h : blockedInv st) (ok : Bool)
    (fr : ScanResult) (ap : AccessPointInfo) :
    (getNextAccessPoint st ok fr ap).2.2 = st := by
  unfold getNextAccessPoint
  split
  · rfl
  · split
    · rfl
    · split
      · rfl
      · rename_i hni hnv hnc
        rcases h with h | h
        · exact absurd h hnc
        · exact absurd h hnv

/-- Helper for C6: one operation that is not a valid-populating scan keeps
the session blocked. -/
lemma blocked_preserved (st : DriverState) (op : Op) (h : blockedInv st)
    (hop : scanPopulates st op = false) : blockedInv (step st op) := by
  cases op with
  | opInit env =>
    show blockedInv (init st env).2.1
    by_cases h1 : st.is_initialized
    · simpa [init, h1] using h
    · by_cases h2 : env.intPinSupported = false
      · simpa [init, h1, h2] using h
      · have hst : (init st env).2.1 = { st with is_initialized := true } := by
          simp [init, h1, h2]
        rw [hst]
        rcases h with h | h
        · exact Or.inl h
        · exact Or.inr h
  | opScan env t =>
    show blockedInv (scanAccessPoints st env t).2.1
    by_cases h1 : st.is_initialized = false
    · simpa [scanAccessPoints, h1] using h
    by_cases h2 : env.setParamsOk = false
    · simpa [scanAccessPoints, h1, h2] using h
    by_cases h3 : env.fetchOk = false
    · have hst : (scanAccessPoints st env t).2.1 =
          { st with num_access_points := 0, access_point_count := 0 } := by
        simp [scanAccessPoints, h1, h2, h3]
      rw [hst]
      exact Or.inl (Nat.le_refl 0)
    · have hv : env.fetchResult.is_valid = false := by
        have h1t : st.is_initialized = true := by
          cases hb : st.is_initialized
          · exact absurd hb h1
          · rfl
        have h2t : env.setParamsOk = true := by
          cases hb : env.setParamsOk
          · exact absurd hb h2
          · rfl
        have h3t : env.fetchOk = true := by
          cases hb : env.fetchOk
          · exact absurd hb h3
          · rfl
        simpa [scanPopulates, h1t, h2t, h3t] using hop
      by_cases h4 : env.stopParamsOk = false
      · have hst : (scanAccessPoints st env t).2.1 =
            { st with ap_scan_result := env.fetchResult,
                      num_access_points := env.fetchResult.num_networks,
                      access_point_count := 0 } := by
          simp [scanAccessPoints, h1, h2, h3, h4]
        rw [hst]
        exact Or.inr hv
      · have hst : (scanAccessPoints st env t).2.1 =
            { st with ap_scan_result := env.fetchResult,
                      num_access_points := env.fetchResult.num_networks,
                      access_point_count := 0 } := by
          simp [scanAccessPoints, h1, h2, h3, h4]
        rw [hst]
        exact Or.inr hv
  | opGetNext ok fr ap =>
    show blockedInv (getNextAccessPoint st ok fr ap).2.2
    rw [blockedInv_getNext_unchanged st h ok fr ap]
    exact h

/-- Helper for C6: along a trace with no valid-populating scan, a blocked
session stays blocked. -/
lemma blocked_along_trace (st : DriverState) (ops : List Op) (h : blockedInv st)
    (hn : noValidScan st ops) : blockedInv (runTrace st ops) := by
  induction ops generalizing st with
  | nil => exact h
  | cons op ops ih =>
    obtain ⟨h1, h2⟩ := hn
    exact ih (step st op) (blocked_preserved st op h h1) h2

/-- Helper for C6: the count invariant is preserved by each operation. -/
lemma countInv_step (st : DriverState) (op : Op) (h : countInv st) :
    countInv (step st op) := by
  cases op with
  | opInit env =>
    show countInv (init st env).2.1
    by_cases h1 : st.is_initialized
    · simpa [init, h1] using h
    · by_cases h2 : env.intPinSupported = false
      · simpa [init, h1, h2] using h
      · have hst : (init st env).2.1 = { st with is_initialized := true } := by
          simp [init, h1, h2]
        rw [hst]
        exact h
  | opScan env t =>
    show countInv (scanAccessPoints st env t).2.1
    by_cases h1 : st.is_initialized = false
    · simpa [scanAccessPoints, h1] using h
    by_cases h2 : env.setParamsOk = false
    · simpa [scanAccessPoints, h1, h2] using h
    by_cases h3 : env.fetchOk = false
    · have hst : (scanAccessPoints st env t).2.1 =
          { st with num_access_points := 0, access_point_count := 0 } := by
        simp [scanAccessPoints, h1, h2, h3]
      rw [hst]
      exact Nat.le_refl 0
    by_cases h4 : env.stopParamsOk = false
    · have hst : (scanAccessPoints st env t).2.1 =
          { st with ap_scan_result := env.fetchResult,
                    num_access_points := env.fetchResult.num_networks,
                    access_point_count := 0 } := by
        simp [scanAccessPoints, h1, h2, h3, h4]
      rw [hst]
      exact Nat.zero_le _
    · have hst : (scanAccessPoints st env t).2.1 =
          { st with ap_scan_result := env.fetchResult,
                    num_access_points := env.fetchResult.num_networks,
                    access_point_count := 0 } := by
        simp [scanAccessPoints, h1, h2, h3, h4]
      rw [hst]
      exact Nat.zero_le _
  | opGetNext ok fr ap =>
    show countInv (getNextAccessPoint st ok fr ap).2.2
    by_cases h1 : st.is_initialized = false
    · simpa [getNextAccessPoint, h1] using h
    by_cases h2 : st.ap_scan_result.is_valid = false
    · simpa [getNextAccessPoint, h1, h2] using h
    by_cases h3 : st.num_access_points ≤ st.access_point_count
    · simpa [getNextAccessPoint, h1, h2, h3] using h
    by_cases h4 : ok = false
    · simpa [getNextAccessPoint, h1, h2, h3, h4] using h
    · have hst : (getNextAccessPoint st ok fr ap).2.2 =
          { st with ap_scan_result := fr,
                    access_point_count := st.access_point_count + 1 } := by
        simp [getNextAccessPoint, h1, h2, h3, h4]
      rw [hst]
      show st.access_point_count + 1 ≤ st.num_access_points
      omega

/-- C6: the Scan Session count invariant (retrievedCount at most
totalNetworks) holds after construction and is preserved by every operation
(init, scanAccessPoints, getNextAccessPoint, the latter two under arbitrary
chip responses); moreover, along any trace from construction in which no
scanAccessPoints call reaches a successful results-fetch delivering a record
marked valid, getNextAccessPoint returns false whatever its inputs, so no
record is obtainable before a scan completes successfully with a valid
result. -/
theorem scan_session_invariant :
    (∀ r, countInv (initialState r)) ∧
    (∀ st op, countInv st → countInv (step st op)) ∧
    (∀ r ops, noValidScan (initialState r) ops →
      ∀ ok fr ap, (getNextAccessPoint (runTrace (initialState r) ops) ok fr ap).1 = false) := by
  refine ⟨fun r => Nat.le_refl 0, fun st op h => countInv_step st op h, ?_⟩
  intro r ops hn ok fr ap
  exact blockedInv_getNext_false _
    (blocked_along_trace _ _ (Or.inl (Nat.le_refl 0)) hn) ok fr ap

/-- Witness for C6 at a construction-time state whose uninitialized buffer
even carries a validity flag reading true, and the empty trace. -/
theorem scan_session_invariant_witness :
    countInv (initialState demoRecord) ∧
    (getNextAccessPoint (runTrace (initialState demoRecord) []) true demoRecord emptyAP).1
      = false :=
  ⟨scan_session_invariant.1 demoRecord,
   scan_session_invariant.2.2 demoRecord [] True.intro true demoRecord emptyAP⟩

end CC3000
